import Mathlib

/-!
# Verification of the `pth` Pthread RAII wrapper (src/pth.hxx)

Shallow embedding of the wrapper classes in `src/pth.hxx`: the `ASSERT_EQ0`
instrumentation macro, the trylock family of `pth::mutex`, `pth::rwlock` and
`pth::spinlock`, the `pth::cond_var` wait / timed-wait operations (including
the deadline arithmetic of `timedwait`), and the move / join / detach
lifecycle of `pth::thread`.

Machine integers (`int`, `long`, `time_t`) are modelled as `Int`; the values
involved in the claims are tiny compared to the 32/64-bit ranges, so no
wraparound is reachable and none is modelled.  C truncated division and
remainder (`/`, `%` on `long`) are `Int.tdiv` / `Int.tmod`.  The result code
of each underlying pthread call is an input to the embedded function, since
the OS primitive itself is an external collaborator.
-/

namespace Pth

/-! ## errno constants (as on Linux, from `<cerrno>`) -/

def EBUSY : Int := 16
def EINVAL : Int := 22
def ETIMEDOUT : Int := 110

/-! ## The `ASSERT_EQ0` macro (src/pth.hxx lines 29-35), debug build

```
# define ASSERT_EQ0(X) \
    ( (X == 0) ? void(0) : []{assert(#X " != 0");}() )
```

`#X " != 0"` pastes into a single string literal.  A C `assert(e)` in a
debug build (NDEBUG undefined) aborts the process iff `e` is not truthy;
an array/string literal decays to a non-null pointer, which is truthy.
-/

/-- A C expression value in boolean context: an integer, or a string literal
(which decays to a non-null `const char*`). -/
inductive CValue where
  | intVal (i : Int)
  | strLit (s : String)
deriving DecidableEq, Repr

/-- C truthiness: an integer is truthy iff non-zero; a string literal decays
to a non-null pointer and is always truthy. -/
def truthy : CValue → Bool
  | .intVal i => i != 0
  | .strLit _ => true

/-- `assert(e)` in a debug build: returns `true` iff the process aborts,
i.e. iff `e` is not truthy. -/
def cAssertAborts (v : CValue) : Bool := ! truthy v

/-- `ASSERT_EQ0(X)` in a debug build, as a function of the value of `X`:
returns `true` iff the process aborts.  When `X != 0` the macro runs
`assert(#X " != 0")`, whose argument is the pasted string literal. -/
def assertEq0Aborts (x : Int) : Bool :=
  if x == 0 then false else cAssertAborts (.strLit "X != 0")

/-! ## Outcome of a wrapper member function in a debug build -/

/-- Either the process aborted inside an assertion, or the function returned
a value. -/
inductive Outcome (α : Type) where
  | abort
  | ret (a : α)
deriving DecidableEq, Repr

/-! ## The trylock family (src/pth.hxx lines 145-157, 184-189, 212-217)

Each source function reads
```
int retval = ::pthread_..._trylock( &_handle );
if ( retval == EBUSY ) return false;
ASSERT_EQ0( retval );
return true;
```
and is embedded as a function of the OS call's result `retval`.
-/

/-- `pth::mutex::trylock` (lines 184-189) as a function of the result of
`pthread_mutex_trylock`. -/
def mutex.trylock (retval : Int) : Outcome Bool :=
  if retval == EBUSY then .ret false
  else if assertEq0Aborts retval then .abort
  else .ret true

/-- `pth::rwlock::tryrdlock` (lines 145-150) as a function of the result of
`pthread_rwlock_tryrdlock`. -/
def rwlock.tryrdlock (retval : Int) : Outcome Bool :=
  if retval == EBUSY then .ret false
  else if assertEq0Aborts retval then .abort
  else .ret true

/-- `pth::rwlock::trywrlock` (lines 152-157) as a function of the result of
`pthread_rwlock_trywrlock`. -/
def rwlock.trywrlock (retval : Int) : Outcome Bool :=
  if retval == EBUSY then .ret false
  else if assertEq0Aborts retval then .abort
  else .ret true

/-- `pth::spinlock::trylock` (lines 212-217) as a function of the result of
`pthread_spin_trylock`. -/
def spinlock.trylock (retval : Int) : Outcome Bool :=
  if retval == EBUSY then .ret false
  else if assertEq0Aborts retval then .abort
  else .ret true

/-! ## `pth::cond_var::timedwait` deadline arithmetic (lines 250-265)

```
constexpr long NS_PER_SEC = 1000000000L;
std::timespec now, abstime;
::clock_gettime( CLOCK_REALTIME, &now );
abstime.tv_sec  =  now.tv_sec  + nsec / NS_PER_SEC;
abstime.tv_nsec =  now.tv_nsec + nsec % NS_PER_SEC;
long over = abstime.tv_nsec / NS_PER_SEC;
if ( abstime.tv_nsec / NS_PER_SEC ) {
    abstime.tv_nsec -= over * NS_PER_SEC;
    abstime.tv_sec  += over;
}
```
`/` and `%` on `long` truncate toward zero: `Int.tdiv` / `Int.tmod`.
The C condition `if (e)` is `e ≠ 0`.
-/

def NS_PER_SEC : Int := 1000000000

/-- A `std::timespec` value. -/
structure Timespec where
  tv_sec : Int
  tv_nsec : Int
deriving DecidableEq, Repr

/-- Lines 259-265: the absolute deadline computed by `timedwait` from the
current `CLOCK_REALTIME` value `now` and the relative duration `nsec`. -/
def computeAbstime (now : Timespec) (nsec : Int) : Timespec :=
  let sec0 := now.tv_sec + Int.tdiv nsec NS_PER_SEC
  let nsec0 := now.tv_nsec + Int.tmod nsec NS_PER_SEC
  let over := Int.tdiv nsec0 NS_PER_SEC
  if over ≠ 0 then { tv_sec := sec0 + over, tv_nsec := nsec0 - over * NS_PER_SEC }
  else { tv_sec := sec0, tv_nsec := nsec0 }

/-- Lines 268-271 of `timedwait`:
```
int retval = ::pthread_cond_timedwait( &_handle, &nh, &abstime );
if ( retval == ETIMEDOUT ) return ETIMEDOUT;
ASSERT_EQ0( retval );
return 0;
```
as a function of the result of `pthread_cond_timedwait`. -/
def cond_var.timedwaitRet (retval : Int) : Outcome Int :=
  if retval == ETIMEDOUT then .ret ETIMEDOUT
  else if assertEq0Aborts retval then .abort
  else .ret 0

/-! ## Which mutex object the condition-variable waits operate on

`pth::mutex::native_handle` (line 177) returns `_handle` **by value**.
`cond_var::wait` (lines 245-248) and `cond_var::timedwait` (lines 267-268)
both do
```
::pthread_mutex_t nh = mtx.native_handle();
... ::pthread_cond_wait( &_handle, &nh ) ...
```
so the pointer handed to the OS is the address of the fresh stack local
`nh`, not the address of the caller's `mtx._handle`.  Object identity is
modelled by giving each `pthread_mutex_t` object an address.
-/

abbrev Addr := Nat

/-- The caller's `pth::mutex`: the address of its `_handle` member and the
current value (bit pattern) of that `pthread_mutex_t`. -/
structure MutexObj where
  addr : Addr
  val : Int
deriving DecidableEq, Repr

/-- `pth::mutex::native_handle` (line 177): `::pthread_mutex_t native_handle()
{ return _handle; }` — returns the handle by value, a copy. -/
def mutex.native_handle (m : MutexObj) : Int := m.val

/-- The arguments of the `pthread_cond_wait` / `pthread_cond_timedwait` OS
call issued by `cond_var::wait`: which mutex object (by address) the call
operates on, and the value it holds. -/
structure CondWaitOSCall where
  mutexArgAddr : Addr
  mutexArgVal : Int
deriving DecidableEq, Repr

/-- `cond_var::wait` (lines 245-248): stores `mtx.native_handle()` in a fresh
stack local `nh` (living at `nhAddr`) and calls
`pthread_cond_wait( &_handle, &nh )`. -/
def cond_var.waitOSCall (mtx : MutexObj) (nhAddr : Addr) : CondWaitOSCall :=
  { mutexArgAddr := nhAddr, mutexArgVal := mutex.native_handle mtx }

/-- The arguments of the `pthread_cond_timedwait` OS call issued by
`cond_var::timedwait`. -/
structure TimedwaitOSCall where
  mutexArgAddr : Addr
  mutexArgVal : Int
  abstime : Timespec
deriving DecidableEq, Repr

/-- `cond_var::timedwait` (lines 250-268): computes the deadline, stores
`mtx.native_handle()` in a fresh stack local `nh` (living at `nhAddr`) and
calls `pthread_cond_timedwait( &_handle, &nh, &abstime )`. -/
def cond_var.timedwaitOSCall (mtx : MutexObj) (nhAddr : Addr)
    (now : Timespec) (nsec : Int) : TimedwaitOSCall :=
  { mutexArgAddr := nhAddr, mutexArgVal := mutex.native_handle mtx,
    abstime := computeAbstime now nsec }

/-! ## `pth::thread` lifecycle (lines 41-107) -/

/-- The data members of a `pth::thread`: `pthread_t _handle` (sentinel `0L`)
and `bool _joinable`. -/
structure ThreadState where
  _handle : Int
  _joinable : Bool
deriving DecidableEq, Repr

/-- `std::exchange(obj, newVal)`: returns the pair (value returned to the
caller, value now stored in `obj`). -/
def stdExchange {α : Type} (obj newVal : α) : α × α := (obj, newVal)

/-- The pthread calls a `pth::thread` member function can issue (whose
result codes only feed `ASSERT_EQ0`, which never aborts — see
`assertEq0Aborts`). -/
inductive OSCall where
  | pthread_join (handle : Int)
  | pthread_detach (handle : Int)
deriving DecidableEq, Repr

/-- Move constructor (lines 75-78):
```
_handle = std::exchange(other._handle, 0L);
_joinable = std::exchange(other._joinable, false);
```
Returns (the newly constructed object, the moved-from `other`). -/
def thread.moveCtor (other : ThreadState) : ThreadState × ThreadState :=
  let (h, otherHandle) := stdExchange other._handle 0
  let (j, otherJoinable) := stdExchange other._joinable false
  ({ _handle := h, _joinable := j }, { _handle := otherHandle, _joinable := otherJoinable })

/-- Move assignment (lines 80-84): same two exchanges as the move
constructor, overwriting `self` unconditionally.  Returns
(the new `*this`, the moved-from `other`, the OS calls performed). -/
def thread.moveAssign (self other : ThreadState) : ThreadState × ThreadState × List OSCall :=
  let (h, otherHandle) := stdExchange other._handle 0
  let (j, otherJoinable) := stdExchange other._joinable false
  let _ := self
  ({ _handle := h, _joinable := j },
   { _handle := otherHandle, _joinable := otherJoinable },
   [])

/-- `pth::thread::joinable` (line 87). -/
def thread.joinable (t : ThreadState) : Bool := t._joinable

/-- `pth::thread::join` (lines 92-97):
```
if ( joinable() ) {
    ASSERT_EQ0( ::pthread_join( _handle, retval) );
    _joinable = false;
}
```
Returns (the state after the call, the OS calls performed). -/
def thread.joinOp (t : ThreadState) : ThreadState × List OSCall :=
  if thread.joinable t then
    ({ t with _joinable := false }, [.pthread_join t._handle])
  else (t, [])

/-- `pth::thread::detach` (lines 99-101):
`ASSERT_EQ0( ::pthread_detach( _handle ) );` — no member is modified. -/
def thread.detachOp (t : ThreadState) : ThreadState × List OSCall :=
  (t, [.pthread_detach t._handle])

/-- `pth::thread::~thread` (lines 67-70): `if ( joinable() ) { join(); }`.
Returns the OS calls performed during destruction. -/
def thread.dtorCalls (t : ThreadState) : List OSCall :=
  if thread.joinable t then (thread.joinOp t).2 else []

/-! ## Helper lemmas on truncated division -/

/-- Truncated remainder of a negated dividend. -/
theorem tmod_neg_left (a b : Int) : Int.tmod (-a) b = -Int.tmod a b := by
  rw [Int.tmod_def, Int.tmod_def, Int.neg_tdiv]
  ring

/-- Truncated division of a negated dividend. -/
theorem tdiv_neg_left (a b : Int) : Int.tdiv (-a) b = -Int.tdiv a b :=
  Int.neg_tdiv a b

/-! ## Theorems for the claims -/

/-- C2: in a debug build, `ASSERT_EQ0(X)` never aborts, for any value of `X`
whatsoever: when `X != 0` it runs `assert(#X " != 0")`, whose argument is a
string literal and hence truthy, so the assertion always passes.  This
refutes the claim that a non-zero wrapped OS result causes an
assertion-style abort. -/
theorem assertEq0_never_aborts : ∀ x : Int, Pth.assertEq0Aborts x = false := by
  intro x
  unfold assertEq0Aborts cAssertAborts truthy
  split <;> rfl

/-- C1: the OS wait call issued by `cond_var::wait` (and the one inside
`cond_var::timedwait`) does not operate on the caller's mutex object: it
receives the address of the fresh stack local `nh` holding a copy of the
handle returned by value from `mutex::native_handle`, and that local is a
distinct object from the caller's `_handle` member. -/
theorem cond_wait_operates_on_local_copy (mtx : MutexObj) (nhAddr : Addr)
    (now : Timespec) (nsec : Int) (hfresh : nhAddr ≠ mtx.addr) :
    (cond_var.waitOSCall mtx nhAddr).mutexArgAddr = nhAddr ∧
    (cond_var.waitOSCall mtx nhAddr).mutexArgAddr ≠ mtx.addr ∧
    (cond_var.timedwaitOSCall mtx nhAddr now nsec).mutexArgAddr ≠ mtx.addr :=
  ⟨rfl, hfresh, hfresh⟩

/-- Witness for C1 at a concrete configuration: the caller's `_handle`
member lives at address 1000 and the stack local `nh` at address 2000. -/
theorem cond_wait_operates_on_local_copy_witness :
    ((2000 : Addr) ≠ (MutexObj.mk 1000 7).addr) ∧
    ((cond_var.waitOSCall (MutexObj.mk 1000 7) 2000).mutexArgAddr = 2000 ∧
     (cond_var.waitOSCall (MutexObj.mk 1000 7) 2000).mutexArgAddr ≠ (MutexObj.mk 1000 7).addr ∧
     (cond_var.timedwaitOSCall (MutexObj.mk 1000 7) 2000 (Timespec.mk 0 0) 5).mutexArgAddr
        ≠ (MutexObj.mk 1000 7).addr) :=
  ⟨by decide,
   cond_wait_operates_on_local_copy (MutexObj.mk 1000 7) 2000 (Timespec.mk 0 0) 5 (by decide)⟩

/-- C4: evaluation of the trylock family at the outcomes of the wrapped OS
call: busy (`EBUSY`) yields `false` and success yields `true` as claimed,
but a fault result such as `EINVAL` is *returned as* `true` — the
`ASSERT_EQ0` on the fault path never aborts, so the fault is a return
value, not fatal. -/
theorem trylock_fault_returns_true :
    (mutex.trylock EBUSY = .ret false ∧ mutex.trylock 0 = .ret true ∧
      mutex.trylock EINVAL = .ret true) ∧
    (rwlock.tryrdlock EBUSY = .ret false ∧ rwlock.tryrdlock 0 = .ret true ∧
      rwlock.tryrdlock EINVAL = .ret true) ∧
    (rwlock.trywrlock EBUSY = .ret false ∧ rwlock.trywrlock 0 = .ret true ∧
      rwlock.trywrlock EINVAL = .ret true) ∧
    (spinlock.trylock EBUSY = .ret false ∧ spinlock.trylock 0 = .ret true ∧
      spinlock.trylock EINVAL = .ret true) := by
  refine ⟨⟨rfl, rfl, rfl⟩, ⟨rfl, rfl, rfl⟩, ⟨rfl, rfl, rfl⟩, ⟨rfl, rfl, rfl⟩⟩

/-- C5: evaluation of the return logic of `cond_var::timedwait` at the
outcomes of `pthread_cond_timedwait`: `ETIMEDOUT` and `0` are passed
through as claimed, but a fault result such as `EINVAL` falls through the
never-aborting `ASSERT_EQ0` and is *returned as* `0`, i.e. reported as
signaled-before-deadline rather than treated as fatal. -/
theorem timedwait_fault_returns_zero :
    cond_var.timedwaitRet ETIMEDOUT = .ret ETIMEDOUT ∧
    cond_var.timedwaitRet 0 = .ret 0 ∧
    cond_var.timedwaitRet EINVAL = .ret 0 :=
  ⟨rfl, rfl, rfl⟩

/-- C3: for a valid current time (`0 ≤ tv_nsec < 10^9`) and a nonnegative
relative duration, the deadline computed by `timedwait` equals the current
time plus the duration (as totals in nanoseconds), and its nanosecond field
is normalized: nonnegative and strictly below one second. -/
theorem timedwait_deadline_correct (now : Timespec) (nsec : Int)
    (h0 : 0 ≤ now.tv_nsec) (h1 : now.tv_nsec < NS_PER_SEC) (h2 : 0 ≤ nsec) :
    (computeAbstime now nsec).tv_sec * NS_PER_SEC + (computeAbstime now nsec).tv_nsec
      = now.tv_sec * NS_PER_SEC + now.tv_nsec + nsec ∧
    0 ≤ (computeAbstime now nsec).tv_nsec ∧
    (computeAbstime now nsec).tv_nsec < NS_PER_SEC := by
  have hNS : (0 : Int) ≤ 1000000000 := by norm_num
  have ed : Int.tdiv nsec 1000000000 = nsec / 1000000000 := Int.tdiv_eq_ediv h2 hNS
  have em : Int.tmod nsec 1000000000 = nsec % 1000000000 := Int.tmod_eq_emod h2 hNS
  have hm0 : 0 ≤ nsec % 1000000000 := Int.emod_nonneg nsec (by norm_num)
  have h1' : now.tv_nsec < 1000000000 := by simpa [NS_PER_SEC] using h1
  have hsum : 0 ≤ now.tv_nsec + Int.tmod nsec 1000000000 := by
    rw [em]; exact add_nonneg h0 hm0
  have ed2 : Int.tdiv (now.tv_nsec + Int.tmod nsec 1000000000) 1000000000
      = (now.tv_nsec + Int.tmod nsec 1000000000) / 1000000000 :=
    Int.tdiv_eq_ediv hsum hNS
  simp only [computeAbstime, NS_PER_SEC]
  rw [ed2, em, ed]
  split
  · refine ⟨by ring_nf; omega, by dsimp only; omega, by dsimp only; omega⟩
  · refine ⟨by ring_nf; omega, by dsimp only; omega, by dsimp only; omega⟩

/-- Witness for C3 at the spec's own example: current time with sub-second
part `999999999` ns plus a relative `2` ns yields a deadline one second
later with nanosecond field `1`. -/
theorem timedwait_deadline_correct_witness :
    ((0 : Int) ≤ (Timespec.mk 0 999999999).tv_nsec ∧
     (Timespec.mk 0 999999999).tv_nsec < NS_PER_SEC ∧ (0 : Int) ≤ 2) ∧
    ((computeAbstime (Timespec.mk 0 999999999) 2).tv_sec * NS_PER_SEC
        + (computeAbstime (Timespec.mk 0 999999999) 2).tv_nsec
      = (Timespec.mk 0 999999999).tv_sec * NS_PER_SEC
        + (Timespec.mk 0 999999999).tv_nsec + 2 ∧
     0 ≤ (computeAbstime (Timespec.mk 0 999999999) 2).tv_nsec ∧
     (computeAbstime (Timespec.mk 0 999999999) 2).tv_nsec < NS_PER_SEC) :=
  ⟨⟨by decide, by decide, by decide⟩,
   timedwait_deadline_correct (Timespec.mk 0 999999999) 2 (by decide) (by decide) (by decide)⟩

/-- C10: when the relative duration is negative enough that the nanosecond
sum goes negative, the carry branch does not fire (`over = 0`, since
truncated division of a value in `(-10^9, 0)` is zero), so `timedwait`
passes the OS call an unnormalized deadline whose `tv_nsec` field is
negative, exactly the raw sums of the fields. -/
theorem timedwait_negative_duration_unnormalized (mtx : MutexObj) (nhAddr : Addr)
    (now : Timespec) (nsec : Int) (h0 : 0 ≤ now.tv_nsec) (_h1 : now.tv_nsec < NS_PER_SEC)
    (hneg : now.tv_nsec + Int.tmod nsec NS_PER_SEC < 0) :
    (cond_var.timedwaitOSCall mtx nhAddr now nsec).abstime
        = Timespec.mk (now.tv_sec + Int.tdiv nsec NS_PER_SEC)
            (now.tv_nsec + Int.tmod nsec NS_PER_SEC) ∧
    (cond_var.timedwaitOSCall mtx nhAddr now nsec).abstime.tv_nsec < 0 := by
  have hNSpos : (0 : Int) < NS_PER_SEC := by norm_num [NS_PER_SEC]
  -- the truncated remainder is strictly greater than -NS_PER_SEC
  have hmlow : -NS_PER_SEC < Int.tmod nsec NS_PER_SEC := by
    rcases le_or_lt 0 nsec with hge | hlt
    · have := Int.tmod_nonneg NS_PER_SEC hge
      omega
    · have hrepr : Int.tmod nsec NS_PER_SEC = -Int.tmod (-nsec) NS_PER_SEC := by
        rw [← tmod_neg_left, neg_neg]
      have hup : Int.tmod (-nsec) NS_PER_SEC < NS_PER_SEC :=
        Int.tmod_lt_of_pos (-nsec) hNSpos
      omega
  -- hence the summed nanosecond field lies in (-NS_PER_SEC, 0) and `over` is 0
  have hover : Int.tdiv (now.tv_nsec + Int.tmod nsec NS_PER_SEC) NS_PER_SEC = 0 := by
    have hnegdiv : Int.tdiv (now.tv_nsec + Int.tmod nsec NS_PER_SEC) NS_PER_SEC
        = -Int.tdiv (-(now.tv_nsec + Int.tmod nsec NS_PER_SEC)) NS_PER_SEC := by
      rw [← tdiv_neg_left, neg_neg]
    have hz : Int.tdiv (-(now.tv_nsec + Int.tmod nsec NS_PER_SEC)) NS_PER_SEC = 0 :=
      Int.tdiv_eq_zero_of_lt (by omega) (by omega)
    rw [hnegdiv, hz, neg_zero]
  constructor
  · simp only [cond_var.timedwaitOSCall, computeAbstime, hover]
    simp
  · simpa [cond_var.timedwaitOSCall, computeAbstime, hover] using hneg

/-- Witness for C10 at a concrete input: current time `(100 s, 0 ns)` and a
relative duration of `-1` ns yield the unnormalized deadline `(100 s, -1 ns)`. -/
theorem timedwait_negative_duration_unnormalized_witness :
    ((0 : Int) ≤ (Timespec.mk 100 0).tv_nsec ∧
     (Timespec.mk 100 0).tv_nsec < NS_PER_SEC ∧
     (Timespec.mk 100 0).tv_nsec + Int.tmod (-1) NS_PER_SEC < 0) ∧
    ((cond_var.timedwaitOSCall (MutexObj.mk 1 5) 2 (Timespec.mk 100 0) (-1)).abstime
        = Timespec.mk ((Timespec.mk 100 0).tv_sec + Int.tdiv (-1) NS_PER_SEC)
            ((Timespec.mk 100 0).tv_nsec + Int.tmod (-1) NS_PER_SEC) ∧
     (cond_var.timedwaitOSCall (MutexObj.mk 1 5) 2 (Timespec.mk 100 0) (-1)).abstime.tv_nsec < 0) :=
  ⟨⟨by decide, by decide, by decide⟩,
   timedwait_negative_duration_unnormalized (MutexObj.mk 1 5) 2 (Timespec.mk 100 0) (-1)
     (by decide) (by decide) (by decide)⟩

/-- C6: move construction and move assignment transfer the handle and the
joinable flag to the destination and reset the source to the no-thread
state (handle `0`, joinable `false`); the destructor of the moved-from
instance therefore performs no OS call (in particular, no join). -/
theorem thread_move_transfers_and_resets_source (other : ThreadState) :
    (thread.moveCtor other).1 = ThreadState.mk other._handle other._joinable ∧
    (thread.moveCtor other).2 = ThreadState.mk 0 false ∧
    (∀ self : ThreadState,
      (thread.moveAssign self other).1 = ThreadState.mk other._handle other._joinable ∧
      (thread.moveAssign self other).2.1 = ThreadState.mk 0 false) ∧
    thread.dtorCalls (thread.moveCtor other).2 = [] ∧
    (∀ self : ThreadState, thread.dtorCalls (thread.moveAssign self other).2.1 = []) :=
  ⟨rfl, rfl, fun _ => ⟨rfl, rfl⟩, rfl, fun _ => rfl⟩

/-- C7: `join()` on a non-joinable thread is a no-op: the state (handle and
joinable flag) is unchanged and no OS call is issued. -/
theorem join_non_joinable_noop (t : ThreadState) (h : thread.joinable t = false) :
    thread.joinOp t = (t, []) := by
  simp [thread.joinOp, h]

/-- Witness for C7 at the default-constructed no-thread state. -/
theorem join_non_joinable_noop_witness :
    thread.joinable (ThreadState.mk 0 false) = false ∧
    thread.joinOp (ThreadState.mk 0 false) = (ThreadState.mk 0 false, []) :=
  ⟨rfl, join_non_joinable_noop (ThreadState.mk 0 false) rfl⟩

/-- C8: `detach()` does not modify the wrapper: in particular the joinable
flag reported by `joinable()` after the call equals the value before it;
the only effect is the `pthread_detach` OS call on the stored handle. -/
theorem detach_leaves_joinable_flag (t : ThreadState) :
    thread.joinable (thread.detachOp t).1 = thread.joinable t ∧
    (thread.detachOp t).1 = t ∧
    (thread.detachOp t).2 = [OSCall.pthread_detach t._handle] :=
  ⟨rfl, rfl, rfl⟩

/-- C9: move assignment onto a destination that still owns a joinable
thread overwrites the destination's handle and flag with the source's
values, resets the source, and performs no OS call at all — neither a join
nor a detach of the previously owned thread. -/
theorem move_assign_abandons_destination (self other : ThreadState)
    (_h : thread.joinable self = true) :
    (thread.moveAssign self other).1 = ThreadState.mk other._handle other._joinable ∧
    (thread.moveAssign self other).2.1 = ThreadState.mk 0 false ∧
    (thread.moveAssign self other).2.2 = [] :=
  ⟨rfl, rfl, rfl⟩

/-- Witness for C9: a destination owning joinable thread 5 is overwritten by
a source owning thread 7, with no join or detach performed. -/
theorem move_assign_abandons_destination_witness :
    thread.joinable (ThreadState.mk 5 true) = true ∧
    ((thread.moveAssign (ThreadState.mk 5 true) (ThreadState.mk 7 true)).1
        = ThreadState.mk 7 true ∧
     (thread.moveAssign (ThreadState.mk 5 true) (ThreadState.mk 7 true)).2.1
        = ThreadState.mk 0 false ∧
     (thread.moveAssign (ThreadState.mk 5 true) (ThreadState.mk 7 true)).2.2 = []) :=
  ⟨rfl, move_assign_abandons_destination (ThreadState.mk 5 true) (ThreadState.mk 7 true) rfl⟩

end Pth
